import Mathlib

/-!
Shallow embedding of the medical-cdss frontend scripts
(frontend/js/analysis.js together with the auth script, and the
records/dashboard scripts) and proofs about the claims of the
specification.  JavaScript strings are modelled as Lean strings,
localStorage as a function from keys to optional values, FormData as an
ordered list of key/value pairs, and each event handler as a pure
function from its inputs (form state, server response) to its effects.
-/

/-- Base URL constant shared by all scripts. -/
def API_URL : String := "http://localhost:8000"

/-- JavaScript string truthiness: a string is truthy iff it is non-empty. -/
def jsTruthyStr (s : String) : Bool := s ≠ ""

/-- JavaScript a || b on strings: a when truthy, else b. -/
def jsOrStr (a b : String) : String := if jsTruthyStr a then a else b

/-- JavaScript a || b where a is a possibly-absent string field
(absent, i.e. undefined or null, is falsy; an empty string is falsy too). -/
def jsOrOptStr (a : Option String) (b : String) : String :=
  match a with
  | some s => jsOrStr s b
  | none => b

/-- Rendering of a possibly-null value inside a template literal:
null renders as the text null. -/
def jsTemplate (v : Option String) : String :=
  match v with
  | some s => s
  | none => "null"

/-- JavaScript Array.prototype.join with a separator. -/
def jsJoin (sep : String) : List String → String
  | [] => ""
  | [a] => a
  | a :: b :: rest => a ++ sep ++ jsJoin sep (b :: rest)

/-- JavaScript String.prototype.toLowerCase, per-character lowering. -/
def jsToLower (s : String) : String := String.mk (s.data.map Char.toLower)

/-- Scan for an occurrence of the needle at any position of the
haystack. -/
def hasSubstr (needle : List Char) : List Char → Bool
  | [] => needle.isEmpty
  | b :: bs => needle.isPrefixOf (b :: bs) || hasSubstr needle bs

/-- JavaScript String.prototype.includes: substring containment. -/
def jsIncludes (s t : String) : Bool := hasSubstr t.data s.data

/-- Client-persisted key/value state (localStorage). -/
def Storage : Type := String → Option String

/-- localStorage.setItem. -/
def setItem (st : Storage) (k v : String) : Storage :=
  fun k' => if k' = k then some v else st k'

/-- localStorage.removeItem. -/
def removeItem (st : Storage) (k : String) : Storage :=
  fun k' => if k' = k then none else st k'

/-- localStorage.getItem. -/
def getItem (st : Storage) (k : String) : Option String := st k

/-!
Severity badge mappings.  Each rendering site has its own conditional
chain; they are embedded one definition per site.
-/

/-- Severity to badge class in displayRecords (records script, both
copies, part_000 lines 98-105 and 433-440). -/
def displayRecords_severityClass (severity : String) : String :=
  if severity = "Severe" then "danger"
  else if severity = "Moderate" then "warning"
  else if severity = "Mild" then "success"
  else "info"

/-- Severity to badge class in the first showRecordModal copy
(part_000 lines 169-176). -/
def showRecordModal_severityClass (severity : String) : String :=
  if severity = "Severe" then "danger"
  else if severity = "Moderate" then "warning"
  else if severity = "Mild" then "success"
  else "info"

/-- Severity to badge class in displayRecentAnalyses on the dashboard
script (part_000 lines 807-814). -/
def displayRecentAnalyses_severityClass (severity : String) : String :=
  if severity = "Severe" then "danger"
  else if severity = "Moderate" then "warning"
  else if severity = "Mild" then "success"
  else "info"

/-- Severity to badge class in the second showRecordModal copy
(part_000 lines 529-535): the inline conditional inside the template
has no Mild branch and no info fallback, everything other than Severe
and Moderate gets success. -/
def showRecordModal2_severityClass (severity : String) : String :=
  if severity = "Severe" then "danger"
  else if severity = "Moderate" then "warning"
  else "success"

/-- Severity to inline color in displayResults
(frontend/js/analysis.js lines 212-219). -/
def displayResults_severityColor (severity : String) : String :=
  if severity = "Severe" then "var(--danger)"
  else if severity = "Moderate" then "var(--warning)"
  else if severity = "Mild" then "var(--secondary)"
  else "var(--info)"

/-- Badge class mapping as the specification words it, for comparison:
Severe to danger, Moderate to warning, Mild to success, anything else
to info. -/
def specBadgeClass (severity : String) : String :=
  if severity = "Severe" then "danger"
  else if severity = "Moderate" then "warning"
  else if severity = "Mild" then "success"
  else "info"

/-!
Analysis form submission (handleAnalyze in frontend/js/analysis.js).
-/

/-- Text fields of the patient form as read by handleAnalyze; every
form control value is a string, and symptomsChecked lists the values of
the checked symptom checkboxes in document order. -/
structure AnalyzeForm where
  patient_name : String
  patient_age : String
  patient_gender : String
  symptomsChecked : List String
  medical_history : String
  temperature : String
  oxygen_saturation : String
  heart_rate : String
  respiratory_rate : String

/-- Serialized symptoms value: the checked values joined by a comma and
space, or the literal None reported when that join is falsy
(analysis.js line 160). -/
def symptomsValue (checked : List String) : String :=
  jsOrStr (jsJoin ", " checked) "None reported"

/-- FormData assembled by handleAnalyze (analysis.js lines 149-176), as
the ordered list of appended key/value pairs; the value of the image entry
is the selected file, kept abstract as a string parameter. -/
def handleAnalyze_formData (image : String) (f : AnalyzeForm) :
    List (String × String) :=
  [("image", image),
   ("patient_name", f.patient_name),
   ("patient_age", f.patient_age),
   ("patient_gender", f.patient_gender),
   ("symptoms", symptomsValue f.symptomsChecked),
   ("medical_history", jsOrStr f.medical_history "")]
  ++ (if jsTruthyStr f.temperature then [("temperature", f.temperature)] else [])
  ++ (if jsTruthyStr f.oxygen_saturation then
        [("oxygen_saturation", f.oxygen_saturation)] else [])
  ++ (if jsTruthyStr f.heart_rate then [("heart_rate", f.heart_rate)] else [])
  ++ (if jsTruthyStr f.respiratory_rate then
        [("respiratory_rate", f.respiratory_rate)] else [])

/-- Whether a FormData key occurs among the appended pairs. -/
def hasKey (l : List (String × String)) (k : String) : Bool :=
  l.any (fun p => p.1 = k)

/-!
Login (handleLogin in the auth script, analysis.js lines 470-525).
-/

/-- JSON body of a login response. -/
structure LoginResponse where
  ok : Bool
  access_token : String
  doctor_name : String
  doctor_id : String
  detail : Option String

/-- Result of a fetch: either a parsed response or a network failure
(the catch branch). -/
inductive FetchResult (α : Type)
  | success (r : α)
  | networkError

/-- Effects of a login attempt: the resulting persisted storage, the
alert shown (message and type), and the scheduled redirect (target and
delay in milliseconds), if any. -/
structure LoginEffects where
  storage : Storage
  alertMessage : String
  alertType : String
  redirect : Option (String × Nat)

/-- handleLogin after the fetch resolves: on ok, persist token and
doctor name/id and schedule the dashboard redirect after 1000 ms; on a
rejected response, show the server detail when truthy, else the generic
message; on network error, show the network message.  The storage is
only written on the ok path. -/
def handleLogin (st : Storage) (resp : FetchResult LoginResponse) :
    LoginEffects :=
  match resp with
  | .networkError =>
      { storage := st
        alertMessage := "Network error. Please check your connection."
        alertType := "error"
        redirect := none }
  | .success data =>
      if data.ok then
        { storage := setItem (setItem (setItem st "token" data.access_token)
            "doctorName" data.doctor_name) "doctorId" data.doctor_id
          alertMessage := "Login successful! Redirecting..."
          alertType := "success"
          redirect := some ("dashboard.html", 1000) }
      else
        { storage := st
          alertMessage :=
            jsOrOptStr data.detail "Login failed. Please check your credentials."
          alertType := "error"
          redirect := none }

/-!
Records table rendering and search (records script, part_000).
-/

/-- One record of the records-list payload, with the fields the table
renders; confidence and timestamp are kept as the strings the row
interpolates. -/
structure MedicalRecord where
  id : Nat
  patient_name : String
  patient_age : String
  patient_gender : String
  disease : String
  severity : String
  confidenceStr : String
  dateStr : String

/-- A rendered table row: either the single empty-state row with its
two message lines, or one data row carrying the record and the badge
class chosen for its severity. -/
inductive TableRow
  | emptyState (line1 line2 : String)
  | recordRow (r : MedicalRecord) (severityClass : String)

/-- displayRecords (part_000 lines 77-127): clear the table body, then
either render the single empty-state row, or one row per record. -/
def displayRecords (records : List MedicalRecord) : List TableRow :=
  if records.length = 0 then
    [TableRow.emptyState "No records found"
      "Start analyzing X-rays to see records here"]
  else
    records.map (fun r =>
      TableRow.recordRow r (displayRecords_severityClass r.severity))

/-- A row of the live table as the search handler sees it: its full
text content and its current display style. -/
structure LiveRow where
  text : String
  display : String

/-- State of the records page relevant to search: how many record
fetches have been issued, and the rendered rows. -/
structure RecordsPageState where
  fetchCount : Nat
  rows : List LiveRow

/-- Search input handler (setupSearch, part_000 lines 323-336): lower
the query, and for each row set display to the empty string when the
lowered row text contains it, else to none.  No fetch is issued. -/
def onSearchInput (query : String) (st : RecordsPageState) :
    RecordsPageState :=
  { st with
    rows := st.rows.map (fun row =>
      { row with
        display :=
          if jsIncludes (jsToLower row.text) (jsToLower query) then ""
          else "none" }) }

/-- Case-insensitive substring containment as the specification words
it: the query, lowered, occurs inside the row text, lowered. -/
def ciContains (text query : String) : Prop :=
  (jsToLower query).data <:+: (jsToLower text).data

instance (text query : String) : Decidable (ciContains text query) := by
  unfold ciContains; infer_instance

/-!
Theme controller (initTheme and toggleTheme, present identically in
every script).
-/

/-- Theme-relevant state: the data-theme attribute on the document root
(absent before initialization) and the persisted theme preference. -/
structure ThemeState where
  attr : Option String
  stored : Option String

/-- initTheme (analysis.js lines 16-24): read the stored preference,
fall back to light when it is falsy, and set the root attribute. -/
def initTheme (st : ThemeState) : ThemeState :=
  { st with attr := some (jsOrOptStr st.stored "light") }

/-- toggleTheme (analysis.js lines 26-31): read the current attribute,
flip light to dark and anything else to light, then write both the
attribute and the stored preference. -/
def toggleTheme (st : ThemeState) : ThemeState :=
  let next := if st.attr = some "light" then "dark" else "light"
  { attr := some next, stored := some next }

/-!
Report download (downloadReport, analysis.js lines 307-337).
-/

/-- An issued HTTP request: target URL and headers. -/
structure Request where
  url : String
  headers : List (String × String)

/-- Outcome of the download flow seen by the user. -/
inductive DownloadOutcome
  | saved (filename : String) (alertMessage : String)
  | alertError (msg : String)

/-- Effects of one downloadReport call: the requests it issued, in
order, and the outcome. -/
structure DownloadEffects where
  requests : List Request
  outcome : DownloadOutcome

/-- downloadReport: fetch the report path for the analysis id with the
bearer token header; on ok save the blob under the fixed filename
pattern and show the success alert; on a rejected response or a network
error show the failure alert.  Exactly one request is issued in every
case. -/
def downloadReport (analysisId : Nat) (token : Option String)
    (resp : FetchResult Bool) : DownloadEffects :=
  { requests :=
      [{ url := API_URL ++ "/api/download/report/" ++ toString analysisId
         headers := [("Authorization", "Bearer " ++ jsTemplate token)] }]
    outcome :=
      match resp with
      | .networkError => .alertError "Failed to download report"
      | .success ok =>
          if ok then
            .saved ("medical_report_" ++ toString analysisId ++ ".pdf")
              "Report downloaded successfully!"
          else
            .alertError "Failed to download report" }

/-!
Logout (handleLogout, identical in all scripts).
-/

/-- handleLogout: remove the three session keys and navigate to the
entry page; returns the new storage and the navigation target. -/
def handleLogout (st : Storage) : Storage × String :=
  (removeItem (removeItem (removeItem st "token") "doctorName") "doctorId",
   "index.html")

/-!
Concrete data for evaluating the embedded handlers.
-/

/-- A concrete submitted form whose medical-history value is empty. -/
def emptyHistoryForm : AnalyzeForm :=
  { patient_name := "Jane Doe"
    patient_age := "30"
    patient_gender := "Female"
    symptomsChecked := ["Cough"]
    medical_history := ""
    temperature := ""
    oxygen_saturation := ""
    heart_rate := ""
    respiratory_rate := "" }

/-- A concrete submitted form with one vital sign supplied and one
blank. -/
def vitalsForm : AnalyzeForm :=
  { patient_name := "John Smith"
    patient_age := "40"
    patient_gender := "Male"
    symptomsChecked := []
    medical_history := "Diabetes"
    temperature := "38.5"
    oxygen_saturation := ""
    heart_rate := "72"
    respiratory_rate := "" }

/-- A rejected login response whose detail field is present but empty. -/
def emptyDetailResp : LoginResponse :=
  { ok := false
    access_token := ""
    doctor_name := ""
    doctor_id := ""
    detail := some "" }

/-- A successful login response with concrete values. -/
def okResp : LoginResponse :=
  { ok := true
    access_token := "tok123"
    doctor_name := "Dr. Jane"
    doctor_id := "7"
    detail := none }

/-- A concrete record for evaluating the table renderer. -/
def sampleRecord : MedicalRecord :=
  { id := 1
    patient_name := "Jane Doe"
    patient_age := "30"
    patient_gender := "Female"
    disease := "Pneumonia"
    severity := "Mild"
    confidenceStr := "87.5"
    dateStr := "1/1/2026, 10:00:00 AM" }

/-- A concrete records page with two rendered rows. -/
def janeState : RecordsPageState :=
  { fetchCount := 1
    rows := [{ text := "Jane Doe 30 years, Female", display := "" },
             { text := "John Smith 40 years, Male", display := "" }] }

/-- A concrete storage with a session and a dark theme preference. -/
def sampleStorage : Storage :=
  fun k =>
    if k = "token" then some "tok123"
    else if k = "doctorName" then some "Dr. Jane"
    else if k = "theme" then some "dark" else none

/-!
Claims.
-/

/-- C1 counterexample: the claim says every severity badge site maps
anything other than Severe, Moderate and Mild to info, but the second
showRecordModal copy maps the severity Unknown to success. -/
theorem severity_badge_unknown_counterexample :
    showRecordModal2_severityClass "Unknown" = "success" ∧
    ("success" : String) ≠ "info" := by decide

/-- C1 (amended): displayRecords (both copies), the first
showRecordModal and displayRecentAnalyses all realize the total
deterministic mapping Severe to danger, Moderate to warning, Mild to
success, anything else to info; the second showRecordModal copy agrees
with that mapping exactly on Severe, Moderate and Mild (it sends every
other severity to success instead of info); and displayResults maps
severities to the corresponding color variables, except that Mild gets
the secondary color rather than success. -/
theorem severity_badge_mapping_amended (s : String) :
    displayRecords_severityClass s = specBadgeClass s ∧
    showRecordModal_severityClass s = specBadgeClass s ∧
    displayRecentAnalyses_severityClass s = specBadgeClass s ∧
    (showRecordModal2_severityClass s = specBadgeClass s ↔
      (s = "Severe" ∨ s = "Moderate" ∨ s = "Mild")) ∧
    displayResults_severityColor s =
      "var(--" ++ (if specBadgeClass s = "success" then "secondary"
        else specBadgeClass s) ++ ")" := by
  unfold displayRecords_severityClass showRecordModal_severityClass
    displayRecentAnalyses_severityClass showRecordModal2_severityClass
    displayResults_severityColor specBadgeClass
  by_cases h1 : s = "Severe" <;> by_cases h2 : s = "Moderate" <;>
    by_cases h3 : s = "Mild" <;> simp_all

/-- C1 witness: the amended mapping evaluated at the severity Mild. -/
theorem severity_badge_mapping_amended_witness :
    displayRecords_severityClass "Mild" = "success" ∧
    showRecordModal2_severityClass "Mild" = "success" ∧
    displayResults_severityColor "Mild" = "var(--secondary)" :=
  ⟨(severity_badge_mapping_amended "Mild").1.trans (by decide),
   ((severity_badge_mapping_amended "Mild").2.2.2.1.mpr
      (Or.inr (Or.inr rfl))).trans (by decide),
   (severity_badge_mapping_amended "Mild").2.2.2.2.trans (by decide)⟩

/-- C2: each of the four vital-sign fields is omitted from the
multipart body exactly when its form value is blank, and is appended
with exactly its form value otherwise. -/
theorem vitals_blank_omitted (image : String) (f : AnalyzeForm) :
    ((handleAnalyze_formData image f).filter
        (fun p => p.1 = "temperature") =
      if f.temperature = "" then [] else [("temperature", f.temperature)]) ∧
    ((handleAnalyze_formData image f).filter
        (fun p => p.1 = "oxygen_saturation") =
      if f.oxygen_saturation = "" then []
      else [("oxygen_saturation", f.oxygen_saturation)]) ∧
    ((handleAnalyze_formData image f).filter
        (fun p => p.1 = "heart_rate") =
      if f.heart_rate = "" then [] else [("heart_rate", f.heart_rate)]) ∧
    ((handleAnalyze_formData image f).filter
        (fun p => p.1 = "respiratory_rate") =
      if f.respiratory_rate = "" then []
      else [("respiratory_rate", f.respiratory_rate)]) := by
  unfold handleAnalyze_formData jsTruthyStr
  by_cases h1 : f.temperature = "" <;>
    by_cases h2 : f.oxygen_saturation = "" <;>
    by_cases h3 : f.heart_rate = "" <;>
    by_cases h4 : f.respiratory_rate = "" <;>
    simp [h1, h2, h3, h4, List.filter_append]

/-- C2 witness: the vital-sign omission theorem evaluated at the
concrete form, on a supplied field and on a blank one. -/
theorem vitals_blank_omitted_witness :
    ((handleAnalyze_formData "scan.png" vitalsForm).filter
        (fun p => p.1 = "temperature") = [("temperature", "38.5")]) ∧
    ((handleAnalyze_formData "scan.png" vitalsForm).filter
        (fun p => p.1 = "oxygen_saturation") = []) :=
  ⟨(vitals_blank_omitted "scan.png" vitalsForm).1.trans (by decide),
   (vitals_blank_omitted "scan.png" vitalsForm).2.1.trans (by decide)⟩

/-- The join of checked values by a comma and space is empty exactly
when nothing is checked or the single checked value is the empty
string. -/
theorem jsJoin_comma_eq_empty_iff (l : List String) :
    jsJoin ", " l = "" ↔ (l = [] ∨ l = [""]) := by
  match l with
  | [] => simp [jsJoin]
  | [a] =>
    simp [jsJoin]
  | a :: b :: rest =>
    simp only [jsJoin]
    constructor
    · intro h
      exfalso
      have hlen := congrArg String.length h
      simp [String.length_append] at hlen
      exact absurd hlen.1.2 (by decide)
    · intro h
      rcases h with h | h <;> simp_all

/-- C3 counterexample: with a single checked checkbox whose value is
the empty string, the checked set is non-empty (so the claim requires
the joined value, here the empty string), yet the code sends
None reported. -/
theorem symptoms_serialization_counterexample :
    symptomsValue [""] = "None reported" ∧
    jsJoin ", " [""] = "" ∧
    symptomsValue [""] ≠ jsJoin ", " [""] := by decide

/-- C3 (amended): the symptoms value sent is the checked values joined
by a comma and space whenever that join is non-empty, and is exactly
None reported when the join is empty, which happens exactly when the
checked set is empty or consists of the single empty-string value. -/
theorem symptoms_serialization_amended (checked : List String) :
    (jsJoin ", " checked ≠ "" → symptomsValue checked = jsJoin ", " checked) ∧
    (jsJoin ", " checked = "" → symptomsValue checked = "None reported") ∧
    (jsJoin ", " checked = "" ↔ (checked = [] ∨ checked = [""])) := by
  refine ⟨?_, ?_, jsJoin_comma_eq_empty_iff checked⟩ <;>
    · intro h
      simp [symptomsValue, jsOrStr, jsTruthyStr, h]

/-- C3 witness: the amended theorem evaluated at a concrete checked set
and at the empty checked set. -/
theorem symptoms_serialization_amended_witness :
    symptomsValue ["Cough", "Fever"] = "Cough, Fever" ∧
    symptomsValue [] = "None reported" :=
  ⟨(symptoms_serialization_amended ["Cough", "Fever"]).1 (by decide),
   (symptoms_serialization_amended []).2.1 (by decide)⟩

/-- C4 counterexample: the claim says that an empty medical-history
value means no medical_history key is sent, but the code appends the
key unconditionally, with the empty string as its value. -/
theorem medical_history_counterexample :
    emptyHistoryForm.medical_history = "" ∧
    hasKey (handleAnalyze_formData "xray.png" emptyHistoryForm)
      "medical_history" = true ∧
    ("medical_history", "") ∈
      handleAnalyze_formData "xray.png" emptyHistoryForm := by decide

/-- C4 (amended): the medical_history field is always included in the
request, carrying exactly the form value; when the form value is empty
it is sent as the empty string rather than omitted. -/
theorem medical_history_always_sent (image : String) (f : AnalyzeForm) :
    (handleAnalyze_formData image f).filter
        (fun p => p.1 = "medical_history") =
      [("medical_history", f.medical_history)] := by
  have hor : jsOrStr f.medical_history "" = f.medical_history := by
    by_cases h : f.medical_history = "" <;> simp [jsOrStr, jsTruthyStr, h]
  unfold handleAnalyze_formData jsTruthyStr
  by_cases h1 : f.temperature = "" <;>
    by_cases h2 : f.oxygen_saturation = "" <;>
    by_cases h3 : f.heart_rate = "" <;>
    by_cases h4 : f.respiratory_rate = "" <;>
    simp [h1, h2, h3, h4, hor, List.filter_append]

/-- C4 witness: the amended theorem evaluated at the concrete form with
an empty medical-history value. -/
theorem medical_history_always_sent_witness :
    (handleAnalyze_formData "xray.png" emptyHistoryForm).filter
        (fun p => p.1 = "medical_history") = [("medical_history", "")] :=
  medical_history_always_sent "xray.png" emptyHistoryForm

/-- C5 counterexample: the claim says the server detail is shown
verbatim whenever present, but for a rejected response whose detail is
the (present) empty string the code shows the generic message instead. -/
theorem login_detail_counterexample :
    emptyDetailResp.detail = some "" ∧
    (handleLogin (fun _ => none) (.success emptyDetailResp)).alertMessage =
      "Login failed. Please check your credentials." ∧
    "Login failed. Please check your credentials." ≠ "" := by
  refine ⟨rfl, rfl, by decide⟩

/-- C5 (amended): on a successful login the token and doctor name/id
are persisted and the dashboard redirect is scheduled after 1000 ms; on
a rejected login the storage is unchanged, no redirect is scheduled,
and the server detail is shown verbatim when present and non-empty,
else the generic message is shown as an error. -/
theorem login_effects_amended (st : Storage) (data : LoginResponse) :
    (data.ok = true →
      (handleLogin st (.success data)).storage "token" =
        some data.access_token ∧
      (handleLogin st (.success data)).storage "doctorName" =
        some data.doctor_name ∧
      (handleLogin st (.success data)).storage "doctorId" =
        some data.doctor_id ∧
      (handleLogin st (.success data)).redirect =
        some ("dashboard.html", 1000)) ∧
    (data.ok = false →
      (handleLogin st (.success data)).storage = st ∧
      (handleLogin st (.success data)).redirect = none ∧
      (handleLogin st (.success data)).alertType = "error" ∧
      (∀ d, data.detail = some d → d ≠ "" →
        (handleLogin st (.success data)).alertMessage = d) ∧
      ((data.detail = none ∨ data.detail = some "") →
        (handleLogin st (.success data)).alertMessage =
          "Login failed. Please check your credentials.")) := by
  constructor
  · intro hok
    simp [handleLogin, hok, setItem]
  · intro hok
    refine ⟨by simp [handleLogin, hok], by simp [handleLogin, hok],
      by simp [handleLogin, hok], ?_, ?_⟩
    · intro d hd hne
      simp [handleLogin, hok, hd, jsOrOptStr, jsOrStr, jsTruthyStr, hne]
    · intro hd
      rcases hd with hd | hd <;>
        simp [handleLogin, hok, hd, jsOrOptStr, jsOrStr, jsTruthyStr]

/-- C5 witness: the amended theorem applied to a concrete successful
response and to a concrete rejected response with an empty detail. -/
theorem login_effects_amended_witness :
    ((handleLogin (fun _ => none) (.success okResp)).storage "token" =
        some "tok123" ∧
      (handleLogin (fun _ => none) (.success okResp)).storage "doctorName" =
        some "Dr. Jane" ∧
      (handleLogin (fun _ => none) (.success okResp)).storage "doctorId" =
        some "7" ∧
      (handleLogin (fun _ => none) (.success okResp)).redirect =
        some ("dashboard.html", 1000)) ∧
    (handleLogin (fun _ => none) (.success emptyDetailResp)).storage =
      (fun _ => none) :=
  ⟨(login_effects_amended (fun _ => none) okResp).1 rfl,
   ((login_effects_amended (fun _ => none) emptyDetailResp).2 rfl).1⟩

/-- The substring scan decides list containment of the needle inside
the haystack. -/
theorem hasSubstr_eq_true_iff (needle hay : List Char) :
    hasSubstr needle hay = true ↔ needle <:+: hay := by
  induction hay with
  | nil => simp [hasSubstr, List.isEmpty_iff]
  | cons b bs ih =>
    simp [hasSubstr, List.isPrefixOf_iff_prefix, ih, List.infix_cons_iff]

/-- The embedded includes decides substring containment. -/
theorem jsIncludes_eq_true_iff (s t : String) :
    jsIncludes s t = true ↔ t.data <:+: s.data :=
  hasSubstr_eq_true_iff t.data s.data

/-- C6: after a search keystroke the fetch count is unchanged (no
re-fetch), every row keeps its text, and the display of a row is the empty
string (visible) exactly when its full text contains the query
case-insensitively, else none (hidden). -/
theorem search_filters_rows (query : String) (st : RecordsPageState) :
    (onSearchInput query st).fetchCount = st.fetchCount ∧
    (onSearchInput query st).rows.map LiveRow.text =
      st.rows.map LiveRow.text ∧
    (onSearchInput query st).rows.map LiveRow.display =
      st.rows.map (fun r => if ciContains r.text query then "" else "none") := by
  refine ⟨rfl, ?_, ?_⟩
  · simp [onSearchInput, List.map_map, Function.comp]
  · simp only [onSearchInput, List.map_map]
    refine List.map_congr_left ?_
    intro r _
    by_cases h : ciContains r.text query
    · have hb : jsIncludes (jsToLower r.text) (jsToLower query) = true :=
        (jsIncludes_eq_true_iff _ _).mpr h
      simp [Function.comp, hb, h]
    · have hb : jsIncludes (jsToLower r.text) (jsToLower query) = false := by
        rw [Bool.eq_false_iff]
        intro hc
        exact h ((jsIncludes_eq_true_iff _ _).mp hc)
      simp [Function.comp, hb, h]

/-- C6 witness: filtering the concrete page with the query jane keeps
the fetch count and the row texts, and hides exactly the row whose text
does not contain jane. -/
theorem search_filters_rows_witness :
    (onSearchInput "jane" janeState).fetchCount = 1 ∧
    (onSearchInput "jane" janeState).rows.map LiveRow.text =
      janeState.rows.map LiveRow.text ∧
    (onSearchInput "jane" janeState).rows.map LiveRow.display = ["", "none"] :=
  ⟨(search_filters_rows "jane" janeState).1,
   (search_filters_rows "jane" janeState).2.1,
   by decide⟩

/-- C7: an empty fetched list renders exactly the single empty-state
row carrying the explicit message; a non-empty list renders exactly one
data row per record, in order; the table never renders zero rows. -/
theorem records_table_rows (records : List MedicalRecord) :
    (records = [] → displayRecords records =
      [TableRow.emptyState "No records found"
        "Start analyzing X-rays to see records here"]) ∧
    (records ≠ [] → displayRecords records =
      records.map (fun r =>
        TableRow.recordRow r (displayRecords_severityClass r.severity))) ∧
    (displayRecords records).length = max 1 records.length := by
  refine ⟨?_, ?_, ?_⟩
  · intro h
    simp [displayRecords, h]
  · intro h
    simp [displayRecords, h, List.length_eq_zero]
  · cases records with
    | nil => simp [displayRecords]
    | cons r rest => simp [displayRecords]

/-- C7 witness: the renderer evaluated at the empty list and at a
one-record list. -/
theorem records_table_rows_witness :
    displayRecords [] =
      [TableRow.emptyState "No records found"
        "Start analyzing X-rays to see records here"] ∧
    displayRecords [sampleRecord] =
      [TableRow.recordRow sampleRecord "success"] := by
  refine ⟨(records_table_rows []).1 rfl, ?_⟩
  have h := (records_table_rows [sampleRecord]).2.1 (by simp)
  rw [h]
  rfl

/-- C8: starting from an initialized theme state whose persisted
preference is light or dark and whose root attribute agrees with it,
toggling the theme twice restores both the attribute and the persisted
preference. -/
theorem theme_toggle_involution (st : ThemeState)
    (h1 : st.stored = some "light" ∨ st.stored = some "dark")
    (h2 : st.attr = st.stored) :
    toggleTheme (toggleTheme st) = st := by
  obtain ⟨attr, stored⟩ := st
  rcases h1 with h | h <;> simp_all [toggleTheme]

/-- C8 witness: the double toggle evaluated at the initialized light
state. -/
theorem theme_toggle_involution_witness :
    toggleTheme (toggleTheme { attr := some "light", stored := some "light" }) =
      { attr := some "light", stored := some "light" } :=
  theme_toggle_involution _ (Or.inl rfl) rfl

/-- C9: every downloadReport call issues exactly one request, to the
report path for the given analysis id with the bearer token header; on
a successful response it offers a file named after the id; on a
rejected response or a network error it shows the failure alert. -/
theorem download_report_effects (n : Nat) (token : Option String)
    (resp : FetchResult Bool) :
    (downloadReport n token resp).requests =
      [{ url := API_URL ++ "/api/download/report/" ++ toString n
         headers := [("Authorization", "Bearer " ++ jsTemplate token)] }] ∧
    (downloadReport n token resp).requests.length = 1 ∧
    (resp = .success true →
      (downloadReport n token resp).outcome =
        .saved ("medical_report_" ++ toString n ++ ".pdf")
          "Report downloaded successfully!") ∧
    ((resp = .success false ∨ resp = .networkError) →
      (downloadReport n token resp).outcome =
        .alertError "Failed to download report") := by
  refine ⟨rfl, rfl, ?_, ?_⟩
  · intro h
    subst h
    rfl
  · intro h
    rcases h with h | h <;> subst h <;> rfl

/-- C9 witness: the download flow evaluated at analysis id 42 with a
successful response, and at a rejected response. -/
theorem download_report_effects_witness :
    (downloadReport 42 (some "tok123") (.success true)).requests =
      [{ url := "http://localhost:8000/api/download/report/42"
         headers := [("Authorization", "Bearer tok123")] }] ∧
    (downloadReport 42 (some "tok123") (.success true)).outcome =
      .saved "medical_report_42.pdf" "Report downloaded successfully!" ∧
    (downloadReport 42 (some "tok123") (.success false)).outcome =
      .alertError "Failed to download report" :=
  ⟨(download_report_effects 42 (some "tok123") (.success true)).1,
   (download_report_effects 42 (some "tok123") (.success true)).2.2.1 rfl,
   (download_report_effects 42 (some "tok123") (.success false)).2.2.2
     (Or.inl rfl)⟩

/-- C10: logout removes exactly the three session keys and navigates to
the entry page; every other persisted key, the theme preference in
particular, is left unchanged. -/
theorem logout_removes_only_session_keys (st : Storage) :
    (handleLogout st).1 "token" = none ∧
    (handleLogout st).1 "doctorName" = none ∧
    (handleLogout st).1 "doctorId" = none ∧
    (handleLogout st).2 = "index.html" ∧
    (∀ k, k ≠ "token" → k ≠ "doctorName" → k ≠ "doctorId" →
      (handleLogout st).1 k = st k) ∧
    (handleLogout st).1 "theme" = st "theme" := by
  refine ⟨by simp [handleLogout, removeItem], by simp [handleLogout, removeItem],
    by simp [handleLogout, removeItem], rfl, ?_, ?_⟩
  · intro k h1 h2 h3
    simp [handleLogout, removeItem, h1, h2, h3]
  · simp [handleLogout, removeItem]

/-- C10 witness: after logout on the concrete storage, the theme key
still reads dark while the token key is gone. -/
theorem logout_removes_only_session_keys_witness :
    (handleLogout sampleStorage).1 "theme" = some "dark" ∧
    (handleLogout sampleStorage).1 "token" = none :=
  ⟨((logout_removes_only_session_keys sampleStorage).2.2.2.2.1 "theme"
      (by decide) (by decide) (by decide)).trans (by rfl),
   (logout_removes_only_session_keys sampleStorage).1⟩
